import Mathlib

/-!
Shallow embedding of the TmServer query and ingestion core, translated from
src/tmserver/api/feature.py, src/tmserver/api/mapobject.py and
src/tmaps/tool/result/label.py.

Conventions used throughout:
* Database tables are lists of records; SQL SELECT / WHERE / ORDER BY are
  modelled by List.filter, explicit joins and insertion sort.
* The geometric predicates ST_CoveredBy and ST_Intersects(ST_Boundary(..))
  are black-box storage oracles and enter as Bool-valued parameters.
* HSTORE columns are association lists from String keys to String values.
* A LEFT OUTER JOIN produces an Option of the right-hand record; a WHERE
  condition on a column of the right-hand record is not TRUE when that
  record is NULL, following SQL three-valued logic, so such rows are
  dropped by the filter.
* The source references a handful of identifiers that are not bound at
  their point of use (tpoints, mapobject_type_name, layer_id, zplane,
  paritition_key).  Where such a name has an evident referent, for
  instance paritition_key for partition_key, the embedding uses the
  referent; the free variable tpoints becomes an explicit parameter of the
  embedded functions.  The unbound names that terminate an execution path
  are modelled as the errors they raise: the filename construction of both
  table views reads the unbound mapobject_type_name, so every request that
  passes validation dies there with a NameError and the streaming phase of
  those two views is dead code; the second session of add_feature_values
  reads the unbound zplane; and the add_segmentations ingestion loop reads
  the variable mapobject before any assignment.  The streaming generators
  themselves (the inner generate_feature_matrix functions) are embedded as
  standalone definitions, since their bodies are source code even though
  the enclosing views never reach them.
-/

/-!
The table generators and the containment queries they run are defined
first, then the endpoint pipelines, the ingestion endpoints and the
label-result constructors, with the theorems interleaved next to the
definitions they are about.
-/

namespace Tm

/-- Abstract handle for a PostGIS geometry value; the embedding never
inspects geometry, it only passes handles to the external oracles. -/
abbrev Polygon := Nat

/-- HSTORE value of a FeatureValues / LabelValues row: string keys (feature
ids rendered as decimal strings) mapped to string-rendered numbers. -/
abbrev Hstore := List (String × String)

/-- Row of the mapobject_segmentations table (tmlib model
MapobjectSegmentation), restricted to the columns the embedded code reads. -/
structure MapobjectSegmentation where
  mapobject_id : Nat
  segmentation_layer_id : Nat
  partition_key : Nat
  label : Nat
  geom_polygon : Polygon
  geom_centroid : Polygon
deriving DecidableEq

/-- Row of the feature_values table (tmlib model FeatureValues). -/
structure FeatureValuesRec where
  mapobject_id : Nat
  partition_key : Nat
  tpoint : Nat
  values : Hstore
deriving DecidableEq

/-- Row of the label_values table (tmlib model LabelValues). -/
structure LabelValuesRec where
  mapobject_id : Nat
  partition_key : Nat
  tpoint : Nat
  values : Hstore
deriving DecidableEq

/-- Row of the features table (tmlib model Feature). -/
structure FeatureRec where
  id : Nat
  name : String
  mapobject_type_id : Nat
deriving DecidableEq

/-- Row of the tool_results table (tmlib model ToolResult). -/
structure ToolResultRec where
  id : Nat
  name : String
  mapobject_type_id : Nat
deriving DecidableEq

/-! ### Sorting by a numeric key (embeds SQL ORDER BY and Python sorted) -/

/-- Comparison by a numeric key, the relation used for ORDER BY columns and
for Python sorted with an integer key function. -/
def keyLe {α : Type} (f : α → Nat) (a b : α) : Prop := f a ≤ f b

instance {α : Type} (f : α → Nat) : DecidableRel (keyLe f) :=
  fun a b => inferInstanceAs (Decidable (f a ≤ f b))

instance {α : Type} (f : α → Nat) : IsTotal α (keyLe f) :=
  ⟨fun a b => Nat.le_total (f a) (f b)⟩

instance {α : Type} (f : α → Nat) : IsTrans α (keyLe f) :=
  ⟨fun _ _ _ h₁ h₂ => Nat.le_trans h₁ h₂⟩

/-- Stable sort of a list by a numeric key. -/
def sortByKey {α : Type} (f : α → Nat) (l : List α) : List α :=
  l.insertionSort (keyLe f)

theorem sorted_keyLe_sortByKey {α : Type} (f : α → Nat) (l : List α) :
    List.Sorted (keyLe f) (sortByKey f l) :=
  List.sorted_insertionSort _ _

theorem perm_sortByKey {α : Type} (f : α → Nat) (l : List α) :
    (sortByKey f l).Perm l :=
  List.perm_insertionSort _ _

theorem sorted_map_sortByKey {α : Type} (f : α → Nat) (l : List α) :
    List.Sorted (· ≤ ·) ((sortByKey f l).map f) :=
  List.pairwise_map.mpr (sorted_keyLe_sortByKey f l)

theorem sortByKey_strictSorted {α : Type} (f : α → Nat) {l : List α}
    (hn : (l.map f).Nodup) :
    List.Sorted (fun a b => f a < f b) (sortByKey f l) := by
  have hn₂ : ((sortByKey f l).map f).Nodup :=
    (((perm_sortByKey f l).map f).nodup_iff).mpr hn
  have hne : List.Pairwise (fun a b => f a ≠ f b) (sortByKey f l) :=
    List.pairwise_map.mp hn₂
  exact ((sorted_keyLe_sortByKey f l).and hne).imp
    (fun h => Nat.lt_of_le_of_ne h.1 h.2)

theorem sortByKey_eq_of_perm {α : Type} (f : α → Nat) {l₁ l₂ : List α}
    (hp : l₁.Perm l₂) (hn : (l₁.map f).Nodup) :
    sortByKey f l₁ = sortByKey f l₂ := by
  haveI : IsAntisymm α (fun a b => f a < f b) :=
    ⟨fun a b h₁ h₂ => absurd h₂ (Nat.lt_asymm h₁)⟩
  have hn₂ : (l₂.map f).Nodup := ((hp.map f).nodup_iff).mp hn
  exact List.eq_of_perm_of_sorted
    ((perm_sortByKey f l₁).trans (hp.trans (perm_sortByKey f l₂).symm))
    (sortByKey_strictSorted f hn) (sortByKey_strictSorted f hn₂)

/-! ### The containment queries of the two table generators -/

/-- LEFT OUTER JOIN of the segmentation table with a values table, joined on
the mapobject_id foreign key: every segmentation row appears, paired with
none when no values row matches. -/
def leftOuterJoinValues {β : Type} (idOf : β → Nat)
    (segs : List MapobjectSegmentation) (vals : List β) :
    List (MapobjectSegmentation × Option β) :=
  segs.flatMap (fun s =>
    match vals.filter (fun v => idOf v == s.mapobject_id) with
    | [] => [(s, none)]
    | ms => ms.map (fun v => (s, some v)))

/-- Containment query of generate_feature_matrix in get_feature_values
(feature.py lines 440 to 454): segmentations outer-joined with
FeatureValues, restricted by the WHERE clause, ordered by mapobject_id,
projected to (mapobject_id, values).  The conditions on FeatureValues
columns sit in the WHERE clause, so a NULL-extended row never satisfies
them. -/
def featureValuesQuery (segs : List MapobjectSegmentation)
    (fvs : List FeatureValuesRec) (partition_key : Nat)
    (tpoints layer_ids : List Nat)
    (covered : Polygon → Polygon → Bool) (refPoly : Polygon) :
    List (Nat × Option Hstore) :=
  let joined := leftOuterJoinValues FeatureValuesRec.mapobject_id segs fvs
  let selected := joined.filter (fun r =>
    (match r.2 with
     | none => false
     | some f => f.partition_key == partition_key && tpoints.contains f.tpoint)
    && layer_ids.contains r.1.segmentation_layer_id
    && covered r.1.geom_polygon refPoly)
  (sortByKey (fun r => r.1.mapobject_id) selected).map
    (fun r => (r.1.mapobject_id, r.2.map (fun f => f.values)))

/-- Result row of the metadata containment query (feature.py lines 686 to
703): mapobject_id, values, tpoint of the LabelValues row (NULL on a
non-matching outer join), raster label and the border flag. -/
structure MetadataQueryRow where
  mapobject_id : Nat
  values : Option Hstore
  tpoint : Option Nat
  label : Nat
  is_border : Bool
deriving DecidableEq

/-- Containment query of generate_feature_matrix in get_metadata
(feature.py lines 686 to 703): segmentations outer-joined with LabelValues,
restricted by the WHERE clause, ordered by mapobject_id; the border flag is
the ST_Intersects(ST_Boundary(..)) oracle wrapped in the CASE expression. -/
def labelValuesQuery (segs : List MapobjectSegmentation)
    (lvs : List LabelValuesRec) (partition_key : Nat)
    (tpoints layer_ids : List Nat)
    (covered intersectsBoundary : Polygon → Polygon → Bool)
    (refPoly : Polygon) : List MetadataQueryRow :=
  let joined := leftOuterJoinValues LabelValuesRec.mapobject_id segs lvs
  let selected := joined.filter (fun r =>
    layer_ids.contains r.1.segmentation_layer_id
    && covered r.1.geom_polygon refPoly
    && r.1.partition_key == partition_key
    && (match r.2 with
        | none => false
        | some f => tpoints.contains f.tpoint))
  (sortByKey (fun r => r.1.mapobject_id) selected).map
    (fun r =>
      { mapobject_id := r.1.mapobject_id
        values := r.2.map (fun f => f.values)
        tpoint := r.2.map (fun f => f.tpoint)
        label := r.1.label
        is_border := intersectsBoundary r.1.geom_polygon refPoly })

/-- C1: every containment query returns its matching objects ordered
ascending by mapobject_id, in both the feature-value table generator and
the metadata table generator, for every reference polygon, partition key
and set of segmentation layer ids. -/
theorem containment_query_ordered_by_mapobject_id
    (segs : List MapobjectSegmentation) (fvs : List FeatureValuesRec)
    (lvs : List LabelValuesRec) (partition_key : Nat)
    (tpoints layer_ids : List Nat)
    (covered intersectsBoundary : Polygon → Polygon → Bool)
    (refPoly : Polygon) :
    List.Sorted (· ≤ ·)
      ((featureValuesQuery segs fvs partition_key tpoints layer_ids covered
          refPoly).map Prod.fst)
    ∧ List.Sorted (· ≤ ·)
      ((labelValuesQuery segs lvs partition_key tpoints layer_ids covered
          intersectsBoundary refPoly).map MetadataQueryRow.mapobject_id) := by
  constructor
  · show List.Sorted (· ≤ ·) (List.map _ (List.map _ _))
    rw [List.map_map]
    exact sorted_map_sortByKey
      (fun r : MapobjectSegmentation × Option FeatureValuesRec =>
        r.1.mapobject_id) _
  · show List.Sorted (· ≤ ·) (List.map _ (List.map _ _))
    rw [List.map_map]
    exact sorted_map_sortByKey
      (fun r : MapobjectSegmentation × Option LabelValuesRec =>
        r.1.mapobject_id) _

/-! ### Sparse value maps and the assembled value-table columns -/

/-- Python int() on the decimal-digit strings used as HSTORE keys. -/
def pyInt (s : String) : Nat :=
  s.data.foldl (fun n c => 10 * n + (c.toNat - 48)) 0

/-- Feature catalog of one mapobject type in the order established by
get_feature_values (feature.py lines 405 to 408): filter by
mapobject_type_id, ORDER BY Feature.id. -/
def featureCatalogSorted (feats : List FeatureRec) (mapobject_type_id : Nat) :
    List FeatureRec :=
  sortByKey FeatureRec.id
    (feats.filter (fun f => f.mapobject_type_id == mapobject_type_id))

/-- Names of the catalog features in ascending feature-id order. -/
def featureNames (feats : List FeatureRec) (mapobject_type_id : Nat) :
    List String :=
  (featureCatalogSorted feats mapobject_type_id).map FeatureRec.name

/-- Header row of the feature-value table (feature.py line 422):
the id column followed by the catalog names. -/
def featureValuesHeader (feats : List FeatureRec) (mapobject_type_id : Nat) :
    List String :=
  "id" :: featureNames feats mapobject_type_id

/-- Keys of a sparse value map in the emission order of feature.py line 470:
sorted(vals, key=lambda k: int(k)). -/
def hstoreSortedKeys (vals : Hstore) : List String :=
  sortByKey pyInt (vals.map Prod.fst)

/-- Cell values of one object row, in emission order (feature.py line 470):
the map entries indexed by the integer-sorted keys. -/
def hstoreSortedValues (vals : Hstore) : List String :=
  (hstoreSortedKeys vals).map (fun k => (List.lookup k vals).getD "")

theorem lookup_eq_of_mem {β : Type} {l : List (String × β)} {k : String}
    {v : β} (hn : (l.map Prod.fst).Nodup) (hm : (k, v) ∈ l) :
    List.lookup k l = some v := by
  induction l with
  | nil => cases hm
  | cons h t ih =>
    rw [List.map_cons, List.nodup_cons] at hn
    rcases List.mem_cons.mp hm with he | ht
    · cases he.symm
      simp [List.lookup]
    · have hk : k ∈ t.map Prod.fst := List.mem_map.mpr ⟨(k, v), ht, rfl⟩
      have hne : (k == h.1) = false := by
        rcases Bool.eq_false_or_eq_true (k == h.1) with htr | hf
        · exact absurd (eq_of_beq htr ▸ hk) hn.1
        · exact hf
      rcases h with ⟨k₀, v₀⟩
      simp only [List.lookup, hne]
      exact ih hn.2 ht

theorem hstoreSortedValues_eq_map_snd (vals : Hstore)
    (hn : (vals.map Prod.fst).Nodup) :
    hstoreSortedValues vals =
      (sortByKey (fun p : String × String => pyInt p.1) vals).map Prod.snd := by
  unfold hstoreSortedValues hstoreSortedKeys
  have hmap : (sortByKey (fun p : String × String => pyInt p.1) vals).map
      Prod.fst = sortByKey pyInt (vals.map Prod.fst) := by
    unfold sortByKey
    exact List.map_insertionSort (keyLe (fun p : String × String => pyInt p.1))
      (keyLe pyInt) Prod.fst vals (fun a _ b _ => Iff.rfl)
  rw [← hmap, List.map_map]
  apply List.map_congr_left
  intro p hp
  have hpv : p ∈ vals :=
    (List.mem_insertionSort (keyLe (fun p : String × String => pyInt p.1))).mp
      hp
  have := lookup_eq_of_mem (l := vals) (k := p.1) (v := p.2) hn
    (by rw [Prod.mk.eta]; exact hpv)
  simp [Function.comp, this]

theorem hstoreSortedValues_perm_eq {v₁ v₂ : Hstore} (hp : v₁.Perm v₂)
    (hn : ((v₁.map Prod.fst).map pyInt).Nodup) :
    hstoreSortedValues v₁ = hstoreSortedValues v₂ := by
  have hkeys₁ : (v₁.map Prod.fst).Nodup := List.Nodup.of_map pyInt hn
  have hkeys₂ : (v₂.map Prod.fst).Nodup :=
    ((hp.map Prod.fst).nodup_iff).mp hkeys₁
  have hn' : (v₁.map (fun p : String × String => pyInt p.1)).Nodup := by
    rw [List.map_map] at hn
    exact hn
  rw [hstoreSortedValues_eq_map_snd v₁ hkeys₁,
    hstoreSortedValues_eq_map_snd v₂ hkeys₂,
    sortByKey_eq_of_perm (fun p : String × String => pyInt p.1) hp hn']

/-- C2: the header row is id followed by feature names sorted ascending by
numeric feature id, and each object row emits its values ordered by the
feature-id keys re-keyed as integers and sorted ascending; both are
invariant under reordering of the catalog and of the sparse map, so the
column set and order depend only on the numeric-id ordering. -/
theorem value_table_column_stability
    (feats₁ feats₂ : List FeatureRec) (mapobject_type_id : Nat)
    (vals₁ vals₂ : Hstore)
    (hcat : feats₁.Perm feats₂)
    (hids : ((feats₁.filter
      (fun f => f.mapobject_type_id == mapobject_type_id)).map
        FeatureRec.id).Nodup)
    (hvals : vals₁.Perm vals₂)
    (hkeys : ((vals₁.map Prod.fst).map pyInt).Nodup) :
    featureValuesHeader feats₁ mapobject_type_id
      = featureValuesHeader feats₂ mapobject_type_id
    ∧ List.Sorted (· ≤ ·)
        ((featureCatalogSorted feats₁ mapobject_type_id).map FeatureRec.id)
    ∧ List.Sorted (· ≤ ·) ((hstoreSortedKeys vals₁).map pyInt)
    ∧ hstoreSortedValues vals₁ = hstoreSortedValues vals₂ := by
  refine ⟨?_, ?_, ?_, ?_⟩
  · unfold featureValuesHeader featureNames featureCatalogSorted
    rw [sortByKey_eq_of_perm FeatureRec.id (hcat.filter _) hids]
  · exact sorted_map_sortByKey _ _
  · exact sorted_map_sortByKey _ _
  · exact hstoreSortedValues_perm_eq hvals hkeys

/-- Witness for C2 at a concrete catalog and sparse map: two feature
records listed in either order, and a two-entry value map whose keys 9 and
10 sort numerically rather than lexicographically. -/
theorem value_table_column_stability_witness :
    featureValuesHeader [⟨2, "b", 1⟩, ⟨1, "a", 1⟩] 1
      = featureValuesHeader [⟨1, "a", 1⟩, ⟨2, "b", 1⟩] 1
    ∧ List.Sorted (· ≤ ·)
        ((featureCatalogSorted [⟨2, "b", 1⟩, ⟨1, "a", 1⟩] 1).map
          FeatureRec.id)
    ∧ List.Sorted (· ≤ ·)
        ((hstoreSortedKeys [("10", "x"), ("9", "y")]).map pyInt)
    ∧ hstoreSortedValues [("10", "x"), ("9", "y")]
        = hstoreSortedValues [("9", "y"), ("10", "x")] :=
  value_table_column_stability [⟨2, "b", 1⟩, ⟨1, "a", 1⟩]
    [⟨1, "a", 1⟩, ⟨2, "b", 1⟩] 1 [("10", "x"), ("9", "y")]
    [("9", "y"), ("10", "x")] (by decide) (by decide) (by decide) (by decide)

/-! ### Errors raised by the view functions -/

/-- Outcomes the embedded view functions can fail with.  The first three
mirror the tmserver error classes raised explicitly in the source
(MalformedRequestError, ResourceNotFoundError, MissingGETParameterError);
the remaining ones model ordinary Python exceptions that the source runs
into. -/
inductive ApiError where
  | malformedRequest (msg : String)
  | resourceNotFound (msg : String)
  | missingGETParameter (param : String)
  | nameError (name : String)
  | attributeError (msg : String)
  | indexError (msg : String)
  | valueError (msg : String)
deriving DecidableEq

/-! ### The streamed table generators -/

/-- One data row of the feature-value table (feature.py lines 456 to 472):
a NaN sentinel per feature column when the joined values are NULL,
otherwise the integer-key-sorted values; the object id is inserted at
position 0. -/
def featureRow (feature_names : List String) (mid : Nat)
    (vals : Option Hstore) : List String :=
  match vals with
  | none => toString mid :: feature_names.map (fun _ => "nan")
  | some vs => toString mid :: hstoreSortedValues vs

/-- The full feature-value table of get_feature_values: header row, then
for every reference instance the rows of its containment query in order.
The per-instance reference segmentation polygon, fetched by a one() query
in the source, enters as the resolver refPoly. -/
def generateFeatureMatrix (feature_names : List String)
    (instances : List (Nat × Nat)) (refPoly : Nat → Nat → Polygon)
    (covered : Polygon → Polygon → Bool) (layer_ids tpoints : List Nat)
    (segs : List MapobjectSegmentation) (fvs : List FeatureValuesRec) :
    List (List String) :=
  ("id" :: feature_names) ::
    instances.flatMap (fun ip =>
      (featureValuesQuery segs fvs ip.2 tpoints layer_ids covered
        (refPoly ip.1 ip.2)).map (fun r => featureRow feature_names r.1 r.2))

/-- Python str() on a boolean, as rendered into the CSV by the writer. -/
def pyStrBool : Bool → String
  | true => "True"
  | false => "False"

/-- Rendering of a nullable integer column into a CSV cell. -/
def pyStrOptNat : Option Nat → String
  | none => ""
  | some n => toString n

/-- Positional column names of the metadata table (feature.py lines 615 to
626), chosen by the reference granularity. -/
def metadataPositionNames (ref_model_name : String) : List String :=
  if ref_model_name = "Plate" then ["plate_name"]
  else if ref_model_name = "Well" then ["plate_name", "well_name"]
  else ["plate_name", "well_name", "well_pos_y", "well_pos_x"]

/-- Header row of the metadata table (feature.py lines 629 to 633): id,
positional columns, segmentation descriptors, then the tool-result names. -/
def metadataHeader (ref_model_name : String)
    (tool_result_names : List String) : List String :=
  "id" :: (metadataPositionNames ref_model_name
    ++ ["tpoint", "label", "is_border"] ++ tool_result_names)

/-- One data row of the metadata table (feature.py lines 705 to 723): the
value cells v (NaN sentinels when the joined values are NULL), then the
object id inserted at position 0, then position_values appended, then
tpoint, label and is_border appended. -/
def metadataRowCells (tool_result_names : List String)
    (position_values : List String) (row : MetadataQueryRow) : List String :=
  let v := match row.values with
    | none => tool_result_names.map (fun _ => "nan")
    | some vs => hstoreSortedValues vs
  (toString row.mapobject_id :: v) ++ position_values
    ++ [pyStrOptNat row.tpoint, toString row.label, pyStrBool row.is_border]

/-- The full metadata table of get_metadata: header row, then for every
reference instance the rows of its containment query in order.  The
positional values of a reference instance, fetched by per-instance session
queries in the source, enter as the resolver positionValues. -/
def generateMetadataMatrix (ref_model_name : String)
    (tool_result_names : List String) (instances : List (Nat × Nat))
    (positionValues : Nat → List String) (refPoly : Nat → Nat → Polygon)
    (covered intersectsBoundary : Polygon → Polygon → Bool)
    (layer_ids tpoints : List Nat) (segs : List MapobjectSegmentation)
    (lvs : List LabelValuesRec) : List (List String) :=
  metadataHeader ref_model_name tool_result_names ::
    instances.flatMap (fun ip =>
      (labelValuesQuery segs lvs ip.2 tpoints layer_ids covered
        intersectsBoundary (refPoly ip.1 ip.2)).map
        (metadataRowCells tool_result_names (positionValues ip.1)))

/-! ### Segmentation retrieval (mapobject.py get_segmentations) -/

/-- Containment query of get_segmentations (mapobject.py lines 549 to 560):
labels and polygons of the segmentations in the partition and layer that
are covered by the reference polygon. -/
def getSegmentationsQuery (segs : List MapobjectSegmentation)
    (partition_key layer_id : Nat) (covered : Polygon → Polygon → Bool)
    (refPoly : Polygon) : List (Nat × Polygon) :=
  (segs.filter (fun s =>
    s.partition_key == partition_key
    && s.segmentation_layer_id == layer_id
    && covered s.geom_polygon refPoly)).map
    (fun s => (s.label, s.geom_polygon))

/-- Result of get_segmentations after its emptiness check (mapobject.py
lines 562 to 563): ResourceNotFoundError when no polygon matched,
otherwise the polygons handed to the rasterizer. -/
def getSegmentationsResult (segs : List MapobjectSegmentation)
    (partition_key layer_id : Nat) (covered : Polygon → Polygon → Bool)
    (refPoly : Polygon) : Except ApiError (List (Nat × Polygon)) :=
  let polygons := getSegmentationsQuery segs partition_key layer_id covered
    refPoly
  if polygons.length = 0 then
    .error (.resourceNotFound "MapobjectSegmentation")
  else
    .ok polygons

/-- C3 as a fact about the code: a mapobject whose sparse value map is
entirely absent from the value source is dropped by the WHERE clause of the
outer-joined containment query, so the assembled table carries no row at
all for it, not a full-width NaN row.  Concretely: one segmentation in
scope (layer 7, partition 5, covered by the reference polygon) and an empty
feature_values table yield an empty query result and a header-only table,
while the same segmentation with a stored value map yields its row. -/
theorem valueless_object_dropped_not_nan_filled :
    featureValuesQuery [⟨1, 7, 5, 1, 3, 3⟩] [] 5 [0] [7]
        (fun _ _ => true) 9 = []
    ∧ generateFeatureMatrix ["area"] [(10, 5)] (fun _ _ => 9)
        (fun _ _ => true) [7] [0] [⟨1, 7, 5, 1, 3, 3⟩] [] = [["id", "area"]]
    ∧ featureValuesQuery [⟨1, 7, 5, 1, 3, 3⟩] [⟨1, 5, 0, [("3", "2.5")]⟩]
        5 [0] [7] (fun _ _ => true) 9 = [(1, some [("3", "2.5")])] :=
  ⟨rfl, rfl, rfl⟩

/-- C7 as a fact about the code: the metadata header lists the positional
columns directly after id, but a data row emits the value cells directly
after id and appends the positional and segmentation cells behind them, so
rows are not laid out in header order.  Concretely, at Site granularity
with one tool result: cell 1 of the row is the feature value while column 1
of the header is plate_name, and the row differs from the header-aligned
layout the claim requires. -/
theorem metadata_row_misaligned_with_header :
    metadataHeader "Site" ["res"]
      = ["id", "plate_name", "well_name", "well_pos_y", "well_pos_x",
         "tpoint", "label", "is_border", "res"]
    ∧ metadataRowCells ["res"] ["plateA", "A01", "0", "1"]
        ⟨7, some [("3", "0.5")], some 0, 9, false⟩
      = ["7", "0.5", "plateA", "A01", "0", "1", "0", "9", "False"]
    ∧ metadataRowCells ["res"] ["plateA", "A01", "0", "1"]
        ⟨7, some [("3", "0.5")], some 0, 9, false⟩
      ≠ ["7", "plateA", "A01", "0", "1", "0", "9", "False", "0.5"] := by
  refine ⟨rfl, rfl, ?_⟩
  decide

/-! ### Endpoint-level pipelines for the two table views -/

/-- Row of the mapobject_types table (tmlib model MapobjectType); ref_type
holds the class name of the reference granularity (Plate, Well or Site). -/
structure MapobjectTypeRec where
  id : Nat
  name : String
  ref_type : String
deriving DecidableEq

/-- Row of the segmentation_layers table (tmlib model SegmentationLayer). -/
structure SegmentationLayerRec where
  id : Nat
  mapobject_type_id : Nat
  tpoint : Nat
  zplane : Nat
deriving DecidableEq

/-- Row of the plates table, restricted to the read columns. -/
structure PlateRec where
  id : Nat
  name : String
deriving DecidableEq

/-- Row of the wells table, restricted to the read columns. -/
structure WellRec where
  id : Nat
  plate_id : Nat
  name : String
deriving DecidableEq

/-- Row of the sites table, restricted to the read columns. -/
structure SiteRec where
  id : Nat
  well_id : Nat
  y : Int
  x : Int
deriving DecidableEq

/-- The experiment database visible to the embedded view functions. -/
structure Database where
  mapobject_types : List MapobjectTypeRec
  segmentation_layers : List SegmentationLayerRec
  features : List FeatureRec
  tool_results : List ToolResultRec
  plates : List PlateRec
  wells : List WellRec
  sites : List SiteRec
  segmentations : List MapobjectSegmentation
  feature_values : List FeatureValuesRec
  label_values : List LabelValuesRec

/-- Query parameters shared by get_feature_values and get_metadata. -/
structure TableQuery where
  plate_name : Option String
  well_name : Option String
  well_pos_x : Option Int
  well_pos_y : Option Int
  tpoint : Option Nat
deriving DecidableEq

/-- Segmentation layer ids of the queried type, optionally restricted to
one time point (feature.py lines 341 to 347 and 535 to 540). -/
def tableLayerIds (db : Database) (mapobject_type_id : Nat)
    (tpoint : Option Nat) : List Nat :=
  let layers : List SegmentationLayerRec := db.segmentation_layers.filter
    (fun l => l.mapobject_type_id == mapobject_type_id)
  let restricted : List SegmentationLayerRec := match tpoint with
    | some t => layers.filter (fun l => l.tpoint == t)
    | none => layers
  restricted.map SegmentationLayerRec.id

/-- Granularity validation performed by both table views before any
containment query (feature.py lines 349 to 374 and 542 to 567): a
well-position filter is rejected for a type anchored at Plate or Well, and
a well-name filter is rejected for a type anchored at Plate; otherwise the
reference model name is the ref_type of the queried type. -/
def checkTableGranularity (mapobject_type : MapobjectTypeRec)
    (q : TableQuery) : Except ApiError String :=
  if q.well_pos_y.isSome || q.well_pos_x.isSome then
    if mapobject_type.ref_type == "Plate"
        || mapobject_type.ref_type == "Well" then
      .error (.malformedRequest
        ("Query parameters \"well_pos_y\" and \"well_pos_x\" are not "
          ++ "supported for mapobject type \"" ++ mapobject_type.name
          ++ "\""))
    else .ok mapobject_type.ref_type
  else
    if q.well_name.isSome && (mapobject_type.ref_type == "Plate") then
      .error (.malformedRequest
        ("Query parameter \"well_name\" is not supported for mapobject "
          ++ "type \"" ++ mapobject_type.name ++ "\""))
    else .ok mapobject_type.ref_type

/-- Reference instances at Site granularity (feature.py lines 359 to 396):
sites joined to wells and plates, filtered by whichever of the name and
position parameters are present, yielding (ref_id, partition_key). -/
def siteInstances (db : Database) (q : TableQuery) : List (Nat × Nat) :=
  db.sites.filterMap (fun s =>
    match db.wells.find? (fun w => w.id == s.well_id) with
    | none => none
    | some w =>
      match db.plates.find? (fun p => p.id == w.plate_id) with
      | none => none
      | some p =>
        if q.plate_name.all (fun n => p.name == n)
            && q.well_name.all (fun n => w.name == n)
            && q.well_pos_y.all (fun y => s.y == y)
            && q.well_pos_x.all (fun x => s.x == x)
        then some (s.id, s.well_id) else none)

/-- Reference instances at Well granularity (feature.py lines 375 to 396):
wells joined to plates, filtered by the present name parameters; the well
id doubles as the partition key. -/
def wellInstances (db : Database) (q : TableQuery) : List (Nat × Nat) :=
  db.wells.filterMap (fun w =>
    match db.plates.find? (fun p => p.id == w.plate_id) with
    | none => none
    | some p =>
      if q.plate_name.all (fun n => p.name == n)
          && q.well_name.all (fun n => w.name == n)
      then some (w.id, w.id) else none)

/-- Tool result names in ascending id order (feature.py lines 598 to 602). -/
def toolResultNames (trs : List ToolResultRec) (mapobject_type_id : Nat) :
    List String :=
  (sortByKey ToolResultRec.id
    (trs.filter (fun r => r.mapobject_type_id == mapobject_type_id))).map
    ToolResultRec.name

/-- The get_feature_values view in source order: layer selection
(feature.py lines 341 to 347), mapobject type lookup (line 349, a missing
type surfaces as the AttributeError a None lookup produces), granularity
validation (lines 350 to 374), instance resolution with the present name
and position filters (lines 356 to 396), and then the filename
construction of lines 398 to 403, whose format call reads the unbound name
mapobject_type_name, so every request that passes validation raises a
NameError here and the streaming phase below is never reached.  The
parameters tpoints, covered and refPoly parameterize that unreached
streaming phase (the free variable tpoints, the ST_CoveredBy oracle and
the per-instance reference lookup) and are retained so that the
validation-ordering statements quantify over them. -/
def getFeatureValuesResponse (db : Database) (q : TableQuery)
    (mapobject_type_id : Nat) (tpoints : List Nat)
    (covered : Polygon → Polygon → Bool) (refPoly : Nat → Nat → Polygon) :
    Except ApiError (List (List String)) :=
  let layer_ids := tableLayerIds db mapobject_type_id q.tpoint
  match db.mapobject_types.find? (fun t => t.id == mapobject_type_id) with
  | none => .error (.attributeError "NoneType has no attribute ref_type")
  | some mapobject_type =>
    match checkTableGranularity mapobject_type q with
    | .error e => .error e
    | .ok _ref_model_name =>
      let instances := if q.well_pos_y.isSome || q.well_pos_x.isSome
        then siteInstances db q else wellInstances db q
      let _ := (layer_ids, instances, tpoints, covered, refPoly)
      .error (.nameError "mapobject_type_name")

/-- The get_metadata view, structured like getFeatureValuesResponse: its
filename construction (feature.py lines 591 to 596) reads the same unbound
mapobject_type_name, so every request that passes validation raises a
NameError there and the metadata streaming phase is never reached;
intersectsBoundary and positionValues parameterize that unreached phase. -/
def getMetadataResponse (db : Database) (q : TableQuery)
    (mapobject_type_id : Nat) (tpoints : List Nat)
    (covered intersectsBoundary : Polygon → Polygon → Bool)
    (refPoly : Nat → Nat → Polygon) (positionValues : Nat → List String) :
    Except ApiError (List (List String)) :=
  let layer_ids := tableLayerIds db mapobject_type_id q.tpoint
  match db.mapobject_types.find? (fun t => t.id == mapobject_type_id) with
  | none => .error (.attributeError "NoneType has no attribute ref_type")
  | some mapobject_type =>
    match checkTableGranularity mapobject_type q with
    | .error e => .error e
    | .ok _ref_model_name =>
      let instances := if q.well_pos_y.isSome || q.well_pos_x.isSome
        then siteInstances db q else wellInstances db q
      let _ := (layer_ids, instances, tpoints, covered, intersectsBoundary,
        refPoly, positionValues)
      .error (.nameError "mapobject_type_name")

theorem checkTableGranularity_malformed (mapobject_type : MapobjectTypeRec)
    (q : TableQuery)
    (hmis : ((q.well_pos_y.isSome = true ∨ q.well_pos_x.isSome = true)
        ∧ (mapobject_type.ref_type = "Plate"
           ∨ mapobject_type.ref_type = "Well"))
      ∨ (q.well_name.isSome = true ∧ mapobject_type.ref_type = "Plate")) :
    ∃ msg, checkTableGranularity mapobject_type q
      = .error (.malformedRequest msg) := by
  unfold checkTableGranularity
  rcases hmis with ⟨hwp, href⟩ | ⟨hwn, href⟩
  · have h1 : (q.well_pos_y.isSome || q.well_pos_x.isSome) = true := by
      rcases hwp with h | h <;> simp [h]
    have h2 : (mapobject_type.ref_type == "Plate"
        || mapobject_type.ref_type == "Well") = true := by
      rcases href with h | h <;> simp [h]
    exact ⟨_, by rw [h1, h2]; rfl⟩
  · rcases Bool.eq_false_or_eq_true
      (q.well_pos_y.isSome || q.well_pos_x.isSome) with hb | hb
    · have h2 : (mapobject_type.ref_type == "Plate"
          || mapobject_type.ref_type == "Well") = true := by simp [href]
      exact ⟨_, by rw [hb, h2]; rfl⟩
    · have h2 : (q.well_name.isSome
          && (mapobject_type.ref_type == "Plate")) = true := by
        simp [hwn, href]
      exact ⟨_, by rw [hb, h2]; rfl⟩

/-- C6: when the requested granularity is finer than the reference anchor
of the queried mapobject type (well positions against a type anchored at
Plate or Well, or a well name against a type anchored at Plate), both
table views fail with MalformedRequestError; the result is this error for
every database content and every containment oracle, so no containment
query influences the outcome. -/
theorem granularity_mismatch_rejected_before_query (db : Database)
    (q : TableQuery) (mapobject_type_id : Nat) (tpoints : List Nat)
    (covered intersectsBoundary : Polygon → Polygon → Bool)
    (refPoly : Nat → Nat → Polygon) (positionValues : Nat → List String)
    (mapobject_type : MapobjectTypeRec)
    (hfind : db.mapobject_types.find? (fun t => t.id == mapobject_type_id)
      = some mapobject_type)
    (hmis : ((q.well_pos_y.isSome = true ∨ q.well_pos_x.isSome = true)
        ∧ (mapobject_type.ref_type = "Plate"
           ∨ mapobject_type.ref_type = "Well"))
      ∨ (q.well_name.isSome = true ∧ mapobject_type.ref_type = "Plate")) :
    (∃ msg, getFeatureValuesResponse db q mapobject_type_id tpoints covered
      refPoly = .error (.malformedRequest msg))
    ∧ (∃ msg, getMetadataResponse db q mapobject_type_id tpoints covered
      intersectsBoundary refPoly positionValues
        = .error (.malformedRequest msg)) := by
  obtain ⟨msg, hc⟩ := checkTableGranularity_malformed mapobject_type q hmis
  constructor
  · refine ⟨msg, ?_⟩
    unfold getFeatureValuesResponse
    simp only [hfind, hc]
  · refine ⟨msg, ?_⟩
    unfold getMetadataResponse
    simp only [hfind, hc]

/-- Witness for C6: a type anchored at Well queried with a well position,
in a database holding just that type. -/
theorem granularity_mismatch_rejected_before_query_witness :
    (∃ msg, getFeatureValuesResponse
      ⟨[⟨1, "wells", "Well"⟩], [], [], [], [], [], [], [], [], []⟩
      ⟨none, none, some 2, none, none⟩ 1 [] (fun _ _ => true) (fun _ _ => 0)
      = .error (.malformedRequest msg))
    ∧ (∃ msg, getMetadataResponse
      ⟨[⟨1, "wells", "Well"⟩], [], [], [], [], [], [], [], [], []⟩
      ⟨none, none, some 2, none, none⟩ 1 [] (fun _ _ => true)
      (fun _ _ => false) (fun _ _ => 0) (fun _ => [])
      = .error (.malformedRequest msg)) :=
  granularity_mismatch_rejected_before_query
    ⟨[⟨1, "wells", "Well"⟩], [], [], [], [], [], [], [], [], []⟩
    ⟨none, none, some 2, none, none⟩ 1 [] (fun _ _ => true)
    (fun _ _ => false) (fun _ _ => 0) (fun _ => []) ⟨1, "wells", "Well"⟩
    rfl (Or.inl ⟨Or.inr rfl, Or.inr rfl⟩)

theorem flatMap_eq_nil_of_forall {α β : Type} {l : List α} {f : α → List β}
    (h : ∀ a ∈ l, f a = []) : l.flatMap f = [] := by
  induction l with
  | nil => rfl
  | cons a t ih =>
    rw [List.flatMap_cons, h a (List.mem_cons_self a t),
      ih (fun b hb => h b (List.mem_cons_of_mem a hb))]
    rfl

/-- Database for the empty-region scenario: a Site-anchored mapobject type
with one feature and one layer, a resolvable plate, well and site carrying
a reference segmentation of another type (layer 50), and no segmentation
of the queried type, so that the containment selection of the addressed
region matches nothing. -/
def emptyRegionDb : Database :=
  { mapobject_types := [⟨1, "cells", "Site"⟩]
    segmentation_layers := [⟨7, 1, 0, 0⟩]
    features := [⟨3, "area", 1⟩]
    tool_results := []
    plates := [⟨1, "p"⟩]
    wells := [⟨2, 1, "w"⟩]
    sites := [⟨4, 2, 0, 0⟩]
    segmentations := [⟨99, 50, 2, 1, 9, 9⟩]
    feature_values := []
    label_values := [] }

/-- Site-level query parameters addressing the one site of emptyRegionDb. -/
def emptyRegionQuery : TableQuery :=
  ⟨some "p", some "w", some 0, some 0, none⟩

/-- C4 as a fact about the code, refuting the claim for the feature-value
and metadata retrieval paths: against a region devoid of objects of the
queried type, neither endpoint fails with NotFound — both die on the
NameError of the filename construction (unbound mapobject_type_name,
before the streaming phase), which is not the NotFound outcome the claim
specifies for these paths. -/
theorem empty_region_table_requests_not_notfound :
    getFeatureValuesResponse emptyRegionDb emptyRegionQuery 1 [0]
      (fun _ _ => true) (fun _ _ => 9)
      = .error (.nameError "mapobject_type_name")
    ∧ getMetadataResponse emptyRegionDb emptyRegionQuery 1 [0]
      (fun _ _ => true) (fun _ _ => false) (fun _ _ => 9) (fun _ => [])
      = .error (.nameError "mapobject_type_name") :=
  ⟨rfl, rfl⟩

/-- C4 amended: when a containment query yields zero objects,
get_segmentations fails with ResourceNotFoundError and emits nothing.  The
feature-value and metadata table endpoints do not produce NotFound for an
empty result: their streaming generators, which contain no empty-result
check, would emit exactly the header row, and in the source as written
every request to these two endpoints that passes validation fails with the
NameError of the unbound mapobject_type_name before the streaming phase,
whatever the database content and oracles. -/
theorem empty_containment_result_behavior
    (segs : List MapobjectSegmentation) (partition_key layer_id : Nat)
    (covered intersectsBoundary : Polygon → Polygon → Bool)
    (refPoly0 : Polygon) (feature_names : List String)
    (instances : List (Nat × Nat)) (refPoly : Nat → Nat → Polygon)
    (layer_ids tpoints : List Nat) (fvs : List FeatureValuesRec)
    (ref_model_name : String) (tool_result_names : List String)
    (positionValues : Nat → List String) (lvs : List LabelValuesRec)
    (db : Database) (q : TableQuery) (mapobject_type_id : Nat)
    (tpointsReq : List Nat) (coveredReq intersectsReq : Polygon → Polygon → Bool)
    (refPolyReq : Nat → Nat → Polygon) (positionValuesReq : Nat → List String)
    (mapobject_type : MapobjectTypeRec) (rmn : String)
    (hseg : getSegmentationsQuery segs partition_key layer_id covered
      refPoly0 = [])
    (hfv : ∀ ip ∈ instances, featureValuesQuery segs fvs ip.2 tpoints
      layer_ids covered (refPoly ip.1 ip.2) = [])
    (hlv : ∀ ip ∈ instances, labelValuesQuery segs lvs ip.2 tpoints
      layer_ids covered intersectsBoundary (refPoly ip.1 ip.2) = [])
    (hfind : db.mapobject_types.find? (fun t => t.id == mapobject_type_id)
      = some mapobject_type)
    (hok : checkTableGranularity mapobject_type q = .ok rmn) :
    getSegmentationsResult segs partition_key layer_id covered refPoly0
      = .error (.resourceNotFound "MapobjectSegmentation")
    ∧ generateFeatureMatrix feature_names instances refPoly covered
        layer_ids tpoints segs fvs = [("id" :: feature_names)]
    ∧ generateMetadataMatrix ref_model_name tool_result_names instances
        positionValues refPoly covered intersectsBoundary layer_ids tpoints
        segs lvs = [metadataHeader ref_model_name tool_result_names]
    ∧ getFeatureValuesResponse db q mapobject_type_id tpointsReq coveredReq
        refPolyReq = .error (.nameError "mapobject_type_name")
    ∧ getMetadataResponse db q mapobject_type_id tpointsReq coveredReq
        intersectsReq refPolyReq positionValuesReq
      = .error (.nameError "mapobject_type_name") := by
  refine ⟨?_, ?_, ?_, ?_, ?_⟩
  · unfold getSegmentationsResult
    rw [hseg]
    rfl
  · unfold generateFeatureMatrix
    rw [flatMap_eq_nil_of_forall (fun ip hip => by rw [hfv ip hip]; rfl)]
  · unfold generateMetadataMatrix
    rw [flatMap_eq_nil_of_forall (fun ip hip => by rw [hlv ip hip]; rfl)]
  · unfold getFeatureValuesResponse
    simp only [hfind, hok]
  · unfold getMetadataResponse
    simp only [hfind, hok]

/-- Witness for the amended C4 at concrete inputs: an empty segmentation
table, one reference instance, empty value sources, and a validated
request against emptyRegionDb. -/
theorem empty_containment_result_behavior_witness :
    getSegmentationsResult [] 2 7 (fun _ _ => true) 9
      = .error (.resourceNotFound "MapobjectSegmentation")
    ∧ generateFeatureMatrix ["area"] [(4, 2)] (fun _ _ => 9)
        (fun _ _ => true) [7] [0] [] [] = [["id", "area"]]
    ∧ generateMetadataMatrix "Site" ["res"] [(4, 2)] (fun _ => [])
        (fun _ _ => 9) (fun _ _ => true) (fun _ _ => false) [7] [0] [] []
      = [metadataHeader "Site" ["res"]]
    ∧ getFeatureValuesResponse emptyRegionDb emptyRegionQuery 1 []
        (fun _ _ => false) (fun _ _ => 0)
      = .error (.nameError "mapobject_type_name")
    ∧ getMetadataResponse emptyRegionDb emptyRegionQuery 1 []
        (fun _ _ => false) (fun _ _ => true) (fun _ _ => 0)
        (fun _ => ["x"])
      = .error (.nameError "mapobject_type_name") :=
  empty_containment_result_behavior [] 2 7 (fun _ _ => true)
    (fun _ _ => false) 9 ["area"] [(4, 2)] (fun _ _ => 9) [7] [0] []
    "Site" ["res"] (fun _ => []) [] emptyRegionDb emptyRegionQuery 1 []
    (fun _ _ => false) (fun _ _ => true) (fun _ _ => 0) (fun _ => ["x"])
    ⟨1, "cells", "Site"⟩ "Site" rfl
    (fun ip hip => by cases List.mem_singleton.mp hip; rfl)
    (fun ip hip => by cases List.mem_singleton.mp hip; rfl)
    rfl rfl

/-! ### Coordinate-pair validation of the ingestion endpoints -/

/-- Well-position pairing check of add_segmentations (mapobject.py lines
343 to 351), translated branch for branch: the first branch accepts a
fully supplied pair, the second raises when well_pos_y is supplied or
well_pos_x is missing, the third raises when well_pos_y is missing or
well_pos_x is supplied, and the fall-through accepts. -/
def wellPosPairingCheckSeg (well_pos_y well_pos_x : Option Int) :
    Except ApiError Unit :=
  if well_pos_y.isSome && well_pos_x.isSome then .ok ()
  else if well_pos_y.isSome || well_pos_x.isNone then
    .error (.missingGETParameter "well_pos_x")
  else if well_pos_y.isNone || well_pos_x.isSome then
    .error (.missingGETParameter "well_pos_y")
  else .ok ()

/-- Well-position pairing check of add_feature_values (feature.py lines
194 to 200), identical in structure to the one in add_segmentations. -/
def wellPosPairingCheckFV (well_pos_y well_pos_x : Option Int) :
    Except ApiError Unit :=
  if well_pos_y.isSome && well_pos_x.isSome then .ok ()
  else if well_pos_y.isSome || well_pos_x.isNone then
    .error (.missingGETParameter "well_pos_x")
  else if well_pos_y.isNone || well_pos_x.isSome then
    .error (.missingGETParameter "well_pos_y")
  else .ok ()

/-- C5 as a fact about the code: in both ingestion endpoints the pairing
check accepts a fully supplied pair and rejects a half-supplied pair as
the claim states, but it also rejects the omitted pair: with neither
well_pos_y nor well_pos_x supplied it raises
MissingGETParameterError(well_pos_x), although both parameters are
documented as optional and the well-level branch of each endpoint is
unreachable as a result. -/
theorem well_pos_pairing_rejects_omitted_pair :
    wellPosPairingCheckSeg (some 0) (some 2) = .ok ()
    ∧ wellPosPairingCheckSeg (some 0) none
      = .error (.missingGETParameter "well_pos_x")
    ∧ wellPosPairingCheckSeg none (some 2)
      = .error (.missingGETParameter "well_pos_y")
    ∧ wellPosPairingCheckSeg none none
      = .error (.missingGETParameter "well_pos_x")
    ∧ wellPosPairingCheckFV (some 0) (some 2) = .ok ()
    ∧ wellPosPairingCheckFV (some 0) none
      = .error (.missingGETParameter "well_pos_x")
    ∧ wellPosPairingCheckFV none (some 2)
      = .error (.missingGETParameter "well_pos_y")
    ∧ wellPosPairingCheckFV none none
      = .error (.missingGETParameter "well_pos_x") :=
  ⟨rfl, rfl, rfl, rfl, rfl, rfl, rfl, rfl⟩

/-! ### The add_segmentations ingestion loop (mapobject.py lines 421-437) -/

/-- A Python tm.Mapobject instance: the id column stays None until the
object is added to the session and flushed. -/
structure PyMapobject where
  partition_key : Nat
  mapobject_type_id : Nat
  id : Option Nat
deriving DecidableEq

/-- A tm.MapobjectSegmentation constructed by the ingestion loop; its
mapobject_id is the id attribute of whatever object the variable mapobject
holds, hence possibly None. -/
structure NewSegmentation where
  partition_key : Nat
  mapobject_id : Option Nat
  segmentation_layer_id : Nat
  label : Nat
  geom_polygon : Polygon
deriving DecidableEq

/-- The per-label loop of add_segmentations, translated branch for branch.
For a label present in existing_segmentations_map the source binds
mapobject_id to the stored id and then rebinds mapobject to a freshly
constructed tm.Mapobject, which is never added to the session; for a label
not present it calls session.add(mapobject) and flush, where mapobject
holds whatever the previous iteration bound, and is unbound on the first
such iteration.  reg threads the mapobject variable, nextId the ids handed
out by flush; the result collects the session-added mapobjects and the
constructed segmentations. -/
def addSegmentationsLoop (existing : List (Nat × Nat))
    (partition_key mapobject_type_id segmentation_layer_id : Nat)
    (reg : Option PyMapobject) (nextId : Nat) :
    List (Nat × Polygon) →
    Except ApiError (List PyMapobject × List NewSegmentation)
  | [] => .ok ([], [])
  | (label, poly) :: rest =>
    if (List.lookup label existing).isSome then
      let m : PyMapobject := ⟨partition_key, mapobject_type_id, none⟩
      let seg : NewSegmentation :=
        ⟨partition_key, m.id, segmentation_layer_id, label, poly⟩
      match addSegmentationsLoop existing partition_key mapobject_type_id
        segmentation_layer_id (some m) nextId rest with
      | .error e => .error e
      | .ok (ms, ss) => .ok (ms, seg :: ss)
    else
      match reg with
      | none => .error (.nameError "mapobject")
      | some m₀ =>
        let m : PyMapobject := { m₀ with id := some nextId }
        let seg : NewSegmentation :=
          ⟨partition_key, m.id, segmentation_layer_id, label, poly⟩
        match addSegmentationsLoop existing partition_key mapobject_type_id
          segmentation_layer_id (some m) (nextId + 1) rest with
        | .error e => .error e
        | .ok (ms, ss) => .ok (m :: ms, seg :: ss)

/-- C8 as a fact about the code: label continuity is not implemented.  For
an extracted label 5 whose partition scope already holds a segmentation of
mapobject 42, the loop attaches the new segmentation to a freshly
constructed, never-persisted Mapobject whose id is None, instead of to
mapobject 42, and persists no Mapobject at all; for a label 6 never seen
before, the first iteration reads the unbound variable mapobject and the
request dies with a NameError instead of creating a Mapobject. -/
theorem label_continuity_loop_broken :
    addSegmentationsLoop [(5, 42)] 1 9 3 none 100 [(5, 0)]
      = .ok ([], [⟨1, none, 3, 5, 0⟩])
    ∧ addSegmentationsLoop [] 1 9 3 none 100 [(6, 0)]
      = .error (.nameError "mapobject") :=
  ⟨rfl, rfl⟩

/-! ### The label-result constructors (tmaps/tool/result/label.py) -/

/-- A JSON-serializable attribute value stored by the label-result
constructors. -/
inductive PyVal where
  | int (n : Int)
  | list (l : List Int)
deriving DecidableEq

/-- The attributes dictionary, as an association list in Python dict
iteration order: assignment replaces in place, a new key is appended. -/
abbrev Attrs := List (String × PyVal)

/-- Python dict assignment d[k] = v, the effect of dict.update for one
key. -/
def dictSet : Attrs → String → PyVal → Attrs
  | [], k, v => [(k, v)]
  | (k₀, v₀) :: rest, k, v =>
    if k₀ = k then (k₀, v) :: rest else (k₀, v₀) :: dictSet rest k v

/-- np.min of the labels vector; None models the ValueError raised on an
empty vector. -/
def npMin : List Int → Option Int
  | [] => none
  | h :: t => some (t.foldl min h)

/-- np.max of the labels vector. -/
def npMax : List Int → Option Int
  | [] => none
  | h :: t => some (t.foldl max h)

/-- Observable effects of one constructor invocation: the attributes
container as bound at entry, the container contents after the update, and
the state of the shared default object after the call.  CPython evaluates
a default argument once at function definition time and rebinds the same
object on every call that omits the argument, so a call that omits
attributes receives defaultState itself and its mutation persists into
defaultAfter, while a call that passes a container leaves the default
untouched. -/
structure LabelResultCall where
  observed : Attrs
  stored : Attrs
  defaultAfter : Attrs
deriving DecidableEq

/-- ScalarLabelResult.__init__ (label.py lines 72 to 78): default argument
attributes with a shared mutable dict, updated with the distinct labels
list.  Python list(set(labels)) has unspecified order; eraseDups stands in
for it, and no theorem depends on that order. -/
def scalarLabelResultInit (labels : List Int) (attrArg : Option Attrs)
    (defaultState : Attrs) : LabelResultCall :=
  let attributes := attrArg.getD defaultState
  let updated := dictSet attributes "labels" (.list labels.eraseDups)
  { observed := attributes
    stored := updated
    defaultAfter := if attrArg.isSome then defaultState else updated }

/-- ContinuousLabelResult.__init__ (label.py lines 81 to 88): default
argument attributes with a shared mutable dict, updated with the min and
max of the labels vector; np.min raises on an empty vector. -/
def continuousLabelResultInit (labels : List Int) (attrArg : Option Attrs)
    (defaultState : Attrs) : Except ApiError LabelResultCall :=
  match npMin labels, npMax labels with
  | some mn, some mx =>
    let attributes := attrArg.getD defaultState
    let updated :=
      dictSet (dictSet attributes "min" (.int mn)) "max" (.int mx)
    .ok { observed := attributes
          stored := updated
          defaultAfter := if attrArg.isSome then defaultState else updated }
  | _, _ =>
    .error (.valueError "zero-size array to reduction operation minimum")

theorem lookup_dictSet_self (d : Attrs) (k : String) (v : PyVal) :
    List.lookup k (dictSet d k v) = some v := by
  induction d with
  | nil => simp [dictSet, List.lookup]
  | cons h t ih =>
    rcases h with ⟨k₀, v₀⟩
    by_cases hk : k₀ = k
    · subst hk
      simp [dictSet, List.lookup]
    · have hk' : (k == k₀) = false := by
        rcases Bool.eq_false_or_eq_true (k == k₀) with htr | hf
        · exact absurd (eq_of_beq htr).symm hk
        · exact hf
      simp [dictSet, hk, List.lookup, hk', ih]

theorem dictSet_ne_nil (d : Attrs) (k : String) (v : PyVal) :
    dictSet d k v ≠ [] := by
  cases d with
  | nil => simp [dictSet]
  | cons h t =>
    rcases h with ⟨k₀, v₀⟩
    by_cases hk : k₀ = k <;> simp [dictSet, hk]

/-- C9: the default attributes container of the label-result constructors
is one shared mutable object.  Two successive constructions that both omit
the attributes argument alias it: the second invocation observes exactly
the container the first left behind, including the entries the first call
wrote, rather than a freshly constructed empty container; this holds for
ScalarLabelResult and for ContinuousLabelResult. -/
theorem mutable_default_attributes_shared_across_calls
    (labels₁ labels₂ : List Int) (h₁ : labels₁ ≠ []) (h₂ : labels₂ ≠ []) :
    ((scalarLabelResultInit labels₂ none
        (scalarLabelResultInit labels₁ none []).defaultAfter).observed
      = (scalarLabelResultInit labels₁ none []).stored
    ∧ List.lookup "labels"
        (scalarLabelResultInit labels₂ none
          (scalarLabelResultInit labels₁ none []).defaultAfter).observed
      = some (.list labels₁.eraseDups)
    ∧ (scalarLabelResultInit labels₂ none
        (scalarLabelResultInit labels₁ none []).defaultAfter).observed
      ≠ [])
    ∧ (∃ call₁ call₂,
        continuousLabelResultInit labels₁ none [] = .ok call₁
        ∧ continuousLabelResultInit labels₂ none call₁.defaultAfter
          = .ok call₂
        ∧ call₂.observed = call₁.stored
        ∧ (List.lookup "min" call₂.observed).isSome = true
        ∧ call₂.observed ≠ []) := by
  constructor
  · refine ⟨rfl, ?_, ?_⟩
    · exact lookup_dictSet_self [] "labels" (.list labels₁.eraseDups)
    · exact dictSet_ne_nil [] "labels" (.list labels₁.eraseDups)
  · rcases labels₁ with _ | ⟨a₁, t₁⟩
    · exact absurd rfl h₁
    rcases labels₂ with _ | ⟨a₂, t₂⟩
    · exact absurd rfl h₂
    refine ⟨_, _, rfl, rfl, rfl, ?_, ?_⟩
    · rfl
    · exact dictSet_ne_nil (dictSet [] "min" (.int (t₁.foldl min a₁)))
        "max" (.int (t₁.foldl max a₁))

/-- Witness for C9 at the concrete label vectors [3] and [4]. -/
theorem mutable_default_attributes_shared_across_calls_witness :
    ((scalarLabelResultInit [4] none
        (scalarLabelResultInit [3] none []).defaultAfter).observed
      = (scalarLabelResultInit [3] none []).stored
    ∧ List.lookup "labels"
        (scalarLabelResultInit [4] none
          (scalarLabelResultInit [3] none []).defaultAfter).observed
      = some (.list ([3] : List Int).eraseDups)
    ∧ (scalarLabelResultInit [4] none
        (scalarLabelResultInit [3] none []).defaultAfter).observed
      ≠ [])
    ∧ (∃ call₁ call₂,
        continuousLabelResultInit [3] none [] = .ok call₁
        ∧ continuousLabelResultInit [4] none call₁.defaultAfter
          = .ok call₂
        ∧ call₂.observed = call₁.stored
        ∧ (List.lookup "min" call₂.observed).isSome = true
        ∧ call₂.observed ≠ []) :=
  mutable_default_attributes_shared_across_calls [3] [4]
    (by decide) (by decide)

/-! ### Feature-value ingestion (feature.py add_feature_values) -/

/-- The pd.DataFrame(values, columns=names, index=labels) construction of
feature.py lines 206 to 214: a shape that does not form an n by p table
with n labels and p names raises, and the except clause converts every
such failure into ResourceNotFoundError. -/
def dataFrameCheck (values : List (List String)) (names : List String)
    (labels : List Int) : Except ApiError Unit :=
  if values.length == labels.length
      && values.all (fun row => row.length == names.length) then .ok ()
  else .error (.resourceNotFound
    "Feature values were not provided in the correct format.")

/-- The add_feature_values view up to its first database session: the
well-position pairing check, then the DataFrame construction.  On success
the source opens a session that creates Feature rows and a second session
whose first statement reads the unbound name zplane (feature.py line 228),
so the success path of the embedding stops at that NameError; the db
parameter only documents that the error paths never consult the
database. -/
def addFeatureValuesResponse (well_pos_y well_pos_x : Option Int)
    (names : List String) (values : List (List String))
    (labels : List Int) (db : Database) : Except ApiError Unit :=
  match wellPosPairingCheckFV well_pos_y well_pos_x with
  | .error e => .error e
  | .ok _ =>
    match dataFrameCheck values names labels with
    | .error e => .error e
    | .ok _ =>
      let _ := db
      .error (.nameError "zplane")

/-- C10: when names, labels and values cannot form a well-shaped n by p
table, add_feature_values fails with ResourceNotFoundError, the NotFound
error class rather than MalformedInput, and it does so for every database
state, before any session is opened and hence before any database write. -/
theorem malformed_value_table_raises_notfound_before_write
    (y x : Int) (names : List String) (values : List (List String))
    (labels : List Int) (db : Database)
    (hbad : ¬(values.length = labels.length
      ∧ ∀ row ∈ values, row.length = names.length)) :
    addFeatureValuesResponse (some y) (some x) names values labels db
      = .error (.resourceNotFound
        "Feature values were not provided in the correct format.") := by
  have hp : wellPosPairingCheckFV (some y) (some x) = .ok () := rfl
  have hcond : (values.length == labels.length
      && values.all (fun row => row.length == names.length)) = false := by
    rcases Bool.eq_false_or_eq_true (values.length == labels.length
      && values.all (fun row => row.length == names.length)) with htr | hf
    · exfalso
      apply hbad
      have hsplit := Bool.and_eq_true_iff.mp htr
      refine ⟨beq_iff_eq.mp hsplit.1, fun row hrow => ?_⟩
      exact beq_iff_eq.mp (List.all_eq_true.mp hsplit.2 row hrow)
    · exact hf
  have hd : dataFrameCheck values names labels = .error (.resourceNotFound
      "Feature values were not provided in the correct format.") := by
    unfold dataFrameCheck
    rw [hcond]
    rfl
  unfold addFeatureValuesResponse
  simp only [hp, hd]

/-- Witness for C10: one row of one value against two labels and two
names, over the empty database. -/
theorem malformed_value_table_raises_notfound_before_write_witness :
    addFeatureValuesResponse (some 0) (some 2) ["f1", "f2"] [["1.0"]]
      [1, 2] ⟨[], [], [], [], [], [], [], [], [], []⟩
      = .error (.resourceNotFound
        "Feature values were not provided in the correct format.") :=
  malformed_value_table_raises_notfound_before_write 0 2 ["f1", "f2"]
    [["1.0"]] [1, 2] ⟨[], [], [], [], [], [], [], [], [], []⟩ (by decide)

end Tm
